import Mathlib

/-!
Verification development for the AI image-generation CLI
(sources: src/types.ts, src/providers/index.ts, src/providers/base.ts,
src/providers/replicate.ts, src/providers/google.ts, src/providers/openai.ts,
src/utils/download.ts, src/cli.ts).

The embedding is shallow: TypeScript values become Lean values, the mutable
provider cache becomes explicit state passing, JavaScript exceptions become
an `Except` error channel, and the network/SDK/file-system calls performed
inside `generate` become oracle parameters (functions returning either a
value or a thrown JavaScript exception).  JavaScript strings are modelled by
Lean `String` (with `List Char` used internally where proofs need list
lemmas).
-/

/-- Truthiness of an optional JavaScript string: `undefined` and the empty
string are falsy, every other string is truthy. -/
def truthyStr (s : Option String) : Bool :=
  match s with
  | none => false
  | some v => decide (v ≠ "")

/-- JavaScript `a || b` for an optional string `a` with a string default `b`
(used for patterns like `options.output || DEFAULT_OPTIONS.output`). -/
def jsOrStr (a : Option String) (b : String) : String :=
  match a with
  | none => b
  | some v => if v = "" then b else v

/-- JavaScript `a || b` on two optional strings (used for
`process.env.GOOGLE_API_KEY || process.env.GEMINI_API_KEY`). -/
def jsOrOptStr (a b : Option String) : Option String :=
  if truthyStr a then a else b

/-- JavaScript `a || b` for an optional number with default (0 is falsy). -/
def jsOrNat (a : Option Nat) (b : Nat) : Nat :=
  match a with
  | none => b
  | some v => if v = 0 then b else v

/-- Truthiness of an optional integer (0 is falsy). -/
def truthyInt (s : Option Int) : Bool :=
  match s with
  | none => false
  | some v => decide (v ≠ 0)

/-- Truthiness of an optional rational (0 is falsy); models the JS number
options such as `guidance`. -/
def truthyRat (s : Option Rat) : Bool :=
  match s with
  | none => false
  | some v => decide (v ≠ 0)

/-- Truthiness of an optional list (used for `options.referenceImages?.length`:
falsy when the field is absent or the array is empty). -/
def truthyList (s : Option (List String)) : Bool :=
  match s with
  | none => false
  | some l => decide (l ≠ [])

/-- Rendering of an optional string inside a JS template literal:
`undefined` prints as the text "undefined". -/
def jsRenderOptStr (s : Option String) : String :=
  match s with
  | none => "undefined"
  | some v => v

/-- Association-list lookup keyed by strings; models property access on the
plain-object lookup tables of the source (`MODEL_TO_PROVIDER[model]`,
`FLUX_MODELS[model]`, ...). -/
def assocLookup {α : Type} : List (String × α) → String → Option α
  | [], _ => none
  | (k, v) :: rest, key => if k = key then some v else assocLookup rest key

/-- The three provider names of src/types.ts (`type Provider`). -/
inductive Provider where
  | replicate
  | openai
  | google
deriving DecidableEq

/-- The model-to-provider routing table of src/types.ts
(`MODEL_TO_PROVIDER`), in source (= `Object.entries`) order. -/
def MODEL_TO_PROVIDER : List (String × Provider) :=
  [("flux", Provider.replicate),
   ("flux-schnell", Provider.replicate),
   ("flux-pro", Provider.replicate),
   ("gpt-image-1", Provider.openai),
   ("gpt-image-1.5", Provider.openai),
   ("imagen-3", Provider.google),
   ("imagen-3-fast", Provider.google),
   ("imagen-4", Provider.google),
   ("nano-banana", Provider.google),
   ("nano-banana-pro", Provider.google)]

/-- The process environment variables read by the three provider
constructors. -/
structure Env where
  REPLICATE_API_TOKEN : Option String := none
  OPENAI_API_KEY : Option String := none
  GOOGLE_API_KEY : Option String := none
  GEMINI_API_KEY : Option String := none
deriving DecidableEq

/-- A constructed provider instance.  Reference identity of the TypeScript
object (and of the backend client it owns) is modelled by the allocation
counter `id`: two instances are the same object exactly when their ids are
equal. -/
structure PInstance where
  provider : Provider
  id : Nat
deriving DecidableEq

/-- Lookup in the provider cache (`providers.get(providerName)` on the
module-level `Map`). -/
def mapGet : List (Provider × PInstance) → Provider → Option PInstance
  | [], _ => none
  | (q, w) :: rest, p => if q = p then some w else mapGet rest p

/-- Store into the provider cache (`providers.set(providerName, provider)`);
JS `Map.set` replaces an existing key and otherwise appends. -/
def mapSet : List (Provider × PInstance) → Provider → PInstance → List (Provider × PInstance)
  | [], p, v => [(p, v)]
  | (q, w) :: rest, p, v => if q = p then (p, v) :: rest else (q, w) :: mapSet rest p v

/-- State of src/providers/index.ts: the module-level `providers` map plus an
allocation counter that hands out fresh instance identities. -/
structure RegistryState where
  providers : List (Provider × PInstance) := []
  nextId : Nat := 0
deriving DecidableEq

/-- Constructor of `ReplicateProvider` (src/providers/replicate.ts): throws a
configuration error when `REPLICATE_API_TOKEN` is unset or empty, otherwise
builds the instance (owning its Replicate client). -/
def ReplicateProvider.construct (env : Env) (fresh : Nat) : Except String PInstance :=
  if truthyStr env.REPLICATE_API_TOKEN then Except.ok { provider := Provider.replicate, id := fresh }
  else Except.error "REPLICATE_API_TOKEN environment variable is required"

/-- Constructor of `OpenAIProvider` (src/providers/openai.ts): throws a
configuration error when `OPENAI_API_KEY` is unset or empty. -/
def OpenAIProvider.construct (env : Env) (fresh : Nat) : Except String PInstance :=
  if truthyStr env.OPENAI_API_KEY then Except.ok { provider := Provider.openai, id := fresh }
  else Except.error "OPENAI_API_KEY environment variable is required"

/-- Constructor of `GoogleProvider` (src/providers/google.ts, the variant
imported by src/providers/index.ts): accepts either of two credential
variables and throws a configuration error when both are falsy. -/
def GoogleProvider.construct (env : Env) (fresh : Nat) : Except String PInstance :=
  if truthyStr (jsOrOptStr env.GOOGLE_API_KEY env.GEMINI_API_KEY) then
    Except.ok { provider := Provider.google, id := fresh }
  else Except.error "GOOGLE_API_KEY or GEMINI_API_KEY environment variable is required"

/-- Dispatch of the `switch (providerName)` inside `getOrCreateProvider`.
The `default: throw` arm of the source is unreachable here because
`Provider` is exactly the three-element union type. -/
def constructProvider (env : Env) (p : Provider) (fresh : Nat) : Except String PInstance :=
  match p with
  | Provider.replicate => ReplicateProvider.construct env fresh
  | Provider.openai => OpenAIProvider.construct env fresh
  | Provider.google => GoogleProvider.construct env fresh

/-- The lazy-singleton accessor `getOrCreateProvider` of
src/providers/index.ts.  The returned state is the cache after the call: on
a cache hit it is unchanged; on a miss the constructor runs first, and only
after it succeeds is the instance stored (`providers.set` follows the
`switch`), so a constructor throw leaves the cache exactly as it was. -/
def getOrCreateProvider (env : Env) (p : Provider) (st : RegistryState) :
    Except String PInstance × RegistryState :=
  match mapGet st.providers p with
  | some inst => (Except.ok inst, st)
  | none =>
    match constructProvider env p st.nextId with
    | Except.error e => (Except.error e, st)
    | Except.ok inst =>
      (Except.ok inst, { providers := mapSet st.providers p inst, nextId := st.nextId + 1 })

/-- Comma-separated list of the routing-table keys, as produced by
`Object.keys(MODEL_TO_PROVIDER).join(", ")`. -/
def availableModelsStr : String :=
  String.intercalate ", " (MODEL_TO_PROVIDER.map Prod.fst)

/-- The registry entry point `getProviderForModel` of src/providers/index.ts:
routes through `MODEL_TO_PROVIDER` and throws before touching the cache when
the model is unknown. -/
def getProviderForModel (env : Env) (model : String) (st : RegistryState) :
    Except String PInstance × RegistryState :=
  match assocLookup MODEL_TO_PROVIDER model with
  | none =>
    (Except.error ("Unknown model: " ++ model ++ ". Available models: " ++ availableModelsStr), st)
  | some providerName => getOrCreateProvider env providerName st

/-- The enumeration function `listModels` of src/providers/index.ts:
`Object.entries(MODEL_TO_PROVIDER).map(...)`.  It reads only the static
table; the registry state is passed through untouched. -/
def listModels (st : RegistryState) : List (String × Provider) × RegistryState :=
  (MODEL_TO_PROVIDER.map (fun e => (e.1, e.2)), st)

/-- Lowercasing of a character list; models `String.prototype.toLowerCase`
(ASCII is all that the extension tables need). -/
def lowerStr (l : List Char) : List Char :=
  l.map Char.toLower

/-- Splitting a character list at a separator character; models
`String.prototype.split(sep)` for a one-character separator (the result is
never empty, and splitting a string without the separator yields the whole
string as its single component). -/
def splitOnChar (c : Char) : List Char → List (List Char)
  | [] => [[]]
  | x :: xs =>
    match splitOnChar c xs with
    | [] => [[]]
    | y :: ys => if x = c then [] :: y :: ys else (x :: y) :: ys

/-- The extension-to-MIME table of `getMimeType` (src/utils/download.ts). -/
def mimeTypes : List (String × String) :=
  [("png", "image/png"),
   ("jpg", "image/jpeg"),
   ("jpeg", "image/jpeg"),
   ("webp", "image/webp"),
   ("gif", "image/gif")]

/-- The function `getMimeType` of src/utils/download.ts:
`path.toLowerCase().split('.').pop()` looked up in the table, with
`image/png` as the fallback (`mimeTypes[ext || ''] || 'image/png'`). -/
def getMimeType (path : String) : String :=
  let ext : List Char := ((splitOnChar '.' (lowerStr path.data)).getLast?).getD []
  (assocLookup mimeTypes (String.mk ext)).getD "image/png"

/-- Case-insensitive suffix test on strings (Boolean, decidable); used to
state the claims about extension handling. -/
def endsWithCI (s suf : String) : Bool :=
  List.isSuffixOf suf.data (lowerStr s.data)

/-- Case-sensitive suffix test on strings (Boolean, decidable). -/
def strEndsWith (s suf : String) : Bool :=
  List.isSuffixOf suf.data s.data

/-- Occurrence of `pat` as a prefix of some suffix of the second list
(structural recursion, so concrete instances evaluate in the kernel). -/
def containsSub (pat : List Char) : List Char → Bool
  | [] => List.isPrefixOf pat []
  | x :: xs => List.isPrefixOf pat (x :: xs) || containsSub pat xs

/-- Substring test (Boolean): models `String.prototype.includes` for the
literal patterns used by the Google error classifier. -/
def strContains (s pat : String) : Bool :=
  containsSub pat.data s.data

/-- Length of the extension matched by the anchored case-insensitive regex
`\.(png|jpg|jpeg|webp)$/i` of src/cli.ts, or `none` when the regex does not
match.  The four alternatives are mutually exclusive as anchored suffixes,
so testing them as suffix checks is exactly the regex behaviour. -/
def extMatchLen (l : List Char) : Option Nat :=
  if List.isSuffixOf (String.data ".png") (lowerStr l) then some 4
  else if List.isSuffixOf (String.data ".jpg") (lowerStr l) then some 4
  else if List.isSuffixOf (String.data ".jpeg") (lowerStr l) then some 5
  else if List.isSuffixOf (String.data ".webp") (lowerStr l) then some 5
  else none

/-- The orchestrator expression `baseOutput.replace(/\.(png|jpg|jpeg|webp)$/i, '')`
(src/cli.ts): the base output path with a recognised image extension
removed. -/
def basePathOf (s : String) : String :=
  match extMatchLen s.data with
  | some k => String.mk (s.data.take (s.data.length - k))
  | none => s

/-- The orchestrator expression
`baseOutput.match(/\.(png|jpg|jpeg|webp)$/i)?.[0] || '.png'` (src/cli.ts):
the matched extension text (original casing preserved), defaulting to
`.png`. -/
def extOf (s : String) : String :=
  match extMatchLen s.data with
  | some k => String.mk (s.data.drop (s.data.length - k))
  | none => ".png"

/-- The per-variation output path of the orchestrator loop (src/cli.ts):
`isMultiple ? basePath + "-v" + i + ext : baseOutput`. -/
def variationPath (baseOutput : String) (isMultiple : Bool) (i : Nat) : String :=
  if isMultiple then basePathOf baseOutput ++ "-v" ++ toString i ++ extOf baseOutput
  else baseOutput

/-- The ordered sequence of output paths the orchestrator produces for
variations `i = 1..n` (with `isMultiple` equal to `n > 1`, exactly as in
src/cli.ts). -/
def variationPaths (baseOutput : String) (n : Nat) : List String :=
  (List.range n).map (fun j => variationPath baseOutput (decide (1 < n)) (j + 1))

/-- The optional `thumbnail` option: a JS number or boolean. -/
inductive JsThumb where
  | num (n : Int)
  | boolVal (b : Bool)
deriving DecidableEq

/-- The request record `GenerateOptions` of src/types.ts.  Optional fields
are `Option`; plain flags that the CLI leaves `undefined` or `true` are
Booleans.  Numbers holding fractional values (`guidance`) are rationals. -/
structure GenerateOptions where
  model : String
  prompt : String
  size : Option String := none
  aspectRatio : Option String := none
  output : Option String := none
  referenceImages : Option (List String) := none
  transparent : Bool := false
  removeBg : Bool := false
  addBg : Option String := none
  negativePrompt : Option String := none
  thumbnail : Option JsThumb := none
  variations : Option Nat := none
  seed : Option Int := none
  steps : Option Int := none
  guidance : Option Rat := none
  quality : Option String := none
  style : Option String := none
  numImages : Option Nat := none
  useApi : Bool := false
deriving DecidableEq

/-- The metadata of a successful `GenerationResult` (src/types.ts); the
wall-clock `duration` field is outside the embedding and left out. -/
structure GenMetadata where
  model : String
  prompt : String
  seed : Option Int := none
deriving DecidableEq

/-- The tagged outcome `GenerationResult` of src/types.ts. -/
structure GenerationResult where
  success : Bool
  outputPath : Option String := none
  error : Option String := none
  metadata : Option GenMetadata := none
deriving DecidableEq

/-- The `DEFAULT_OPTIONS` object of src/types.ts (fields used by the
embedded code paths). -/
structure DefaultOpts where
  model : String
  aspectRatio : String
  output : String
  quality : String
  style : String
  numImages : Nat
  steps : Int
  guidance : Rat
deriving DecidableEq

/-- DEFAULT_OPTIONS of src/types.ts. -/
def DEFAULT_OPTIONS : DefaultOpts :=
  { model := "nano-banana-pro"
    aspectRatio := "16:9"
    output := "/tmp/generated-image.png"
    quality := "standard"
    style := "vivid"
    numImages := 1
    steps := 28
    guidance := (7 / 2 : Rat) }

/-- A thrown JavaScript exception as the provider catch blocks see it:
an `Error` with a message, an `OpenAI.APIError` (also an `Error`) with a
status and message, or a thrown non-`Error` value. -/
inductive JsException where
  | err (message : String)
  | apiErr (status : Nat) (message : String)
  | nonError
deriving DecidableEq

/-- The expression `error instanceof Error ? error.message : 'Unknown error
occurred'` shared by all three catch blocks. -/
def jsErrorMessage (e : JsException) : String :=
  match e with
  | JsException.err m => m
  | JsException.apiErr _ m => m
  | JsException.nonError => "Unknown error occurred"

/-- The `FLUX_MODELS` table of src/providers/replicate.ts. -/
def FLUX_MODELS : List (String × String) :=
  [("flux", "black-forest-labs/flux-1.1-pro"),
   ("flux-schnell", "black-forest-labs/flux-schnell"),
   ("flux-pro", "black-forest-labs/flux-pro")]

/-- The `input` record assembled by `ReplicateProvider.generate` before the
backend call (src/providers/replicate.ts). -/
structure ReplicateInput where
  prompt : String
  aspect_ratio : String
  output_format : String := "png"
  output_quality : Nat := 100
  negative_prompt : Option String := none
  seed : Option Int := none
  num_inference_steps : Option Int := none
  guidance_scale : Option Rat := none
  image : Option String := none
  prompt_strength : Option Rat := none
deriving DecidableEq

/-- The base `input` record of `ReplicateProvider.generate` (before the
reference-image branch): prompt and aspect ratio always, the optional
parameters added under the same conditions as in the source (`negativePrompt`
and `steps` and `guidance` by truthiness, `seed` by presence). -/
def buildReplicateInput (opts : GenerateOptions) : ReplicateInput :=
  { prompt := opts.prompt
    aspect_ratio := jsOrStr opts.aspectRatio DEFAULT_OPTIONS.aspectRatio
    negative_prompt := if truthyStr opts.negativePrompt then opts.negativePrompt else none
    seed := opts.seed
    num_inference_steps := if truthyInt opts.steps then opts.steps else none
    guidance_scale := if truthyRat opts.guidance then opts.guidance else none }

/-- A JavaScript value as returned by `client.run` on Replicate: a string,
an array, or anything else. -/
inductive JsVal where
  | str (s : String)
  | arr (l : List JsVal)
  | other

/-- The external calls `ReplicateProvider.generate` awaits, each able to
throw: reading a reference image, running the model, downloading the result
to disk. -/
structure ReplicateOracle where
  readRef : String → Except JsException String
  run : String → ReplicateInput → Except JsException JsVal
  save : String → String → Except JsException String

/-- The body of the `try` block of `ReplicateProvider.generate`
(src/providers/replicate.ts): attach the single supported reference image as
a data URI, run the model, unwrap a URL-or-array-of-URLs result, download it,
and produce the structured outcome.  A thrown exception propagates on the
`Except` error channel to the catch clause. -/
def replicateTryBody (o : ReplicateOracle) (opts : GenerateOptions) (modelId : String) :
    Except JsException GenerationResult := do
  let input0 := buildReplicateInput opts
  let input ←
    if truthyList opts.referenceImages then do
      let refImage := (opts.referenceImages.getD []).headD ""
      let base64 ← o.readRef refImage
      let mimeType := getMimeType refImage
      pure { input0 with
              image := some ("data:" ++ mimeType ++ ";base64," ++ base64)
              prompt_strength := some ((8 : Rat) / 10) }
    else pure input0
  let output ← o.run modelId input
  let imageUrl : Option JsVal :=
    match output with
    | JsVal.arr l => l.head?
    | v => some v
  match imageUrl with
  | some (JsVal.str url) => do
    let outputPath := jsOrStr opts.output DEFAULT_OPTIONS.output
    let _ ← o.save url outputPath
    pure { success := true
           outputPath := some outputPath
           metadata := some { model := opts.model, prompt := opts.prompt, seed := opts.seed } }
  | _ => pure { success := false, error := some "Unexpected response format from Replicate" }

/-- The method `ReplicateProvider.generate` (src/providers/replicate.ts):
unknown Replicate model is an early structured failure before the `try`;
every exception thrown inside the `try` is converted by the catch clause into
the failure variant carrying the exception message (or the generic fallback
for a non-`Error` throw). -/
def ReplicateProvider.generate (o : ReplicateOracle) (opts : GenerateOptions) : GenerationResult :=
  match assocLookup FLUX_MODELS opts.model with
  | none => { success := false, error := some ("Unknown Replicate model: " ++ opts.model) }
  | some modelId =>
    match replicateTryBody o opts modelId with
    | Except.ok r => r
    | Except.error e => { success := false, error := some (jsErrorMessage e) }

/-- A content part of the Google request payload (text or inline image
data), as built by `GoogleProvider.generate` (src/providers/google.ts). -/
inductive GPart where
  | inlinePart (mimeType : String) (data : String)
  | textPart (t : String)
deriving DecidableEq

/-- The request `GoogleProvider.generate` submits to the backend: the
resolved model identifier and the ordered content parts. -/
structure GoogleRequest where
  modelName : String
  parts : List GPart
deriving DecidableEq

/-- A part of the Google response; only the `inlineData?.data` field is
inspected by src/providers/google.ts. -/
structure GRespPart where
  inlineDataData : Option String := none
deriving DecidableEq

/-- A response candidate; `contentParts` models `candidate.content?.parts`. -/
structure GCandidate where
  contentParts : Option (List GRespPart) := none
deriving DecidableEq

/-- The Google backend response; `candidates` models `response.candidates`
(possibly absent). -/
structure GoogleResponse where
  candidates : Option (List GCandidate) := none
deriving DecidableEq

/-- The external calls `GoogleProvider.generate` awaits, each able to throw. -/
structure GoogleOracle where
  readRef : String → Except JsException String
  generateContent : GoogleRequest → Except JsException GoogleResponse
  saveB64 : String → String → Except JsException String

/-- The model-name table of `GoogleProvider.generate`
(src/providers/google.ts), looked up with default
`gemini-2.0-flash-exp`. -/
def googleModelMap : List (String × String) :=
  [("imagen-3", "imagen-3.0-generate-002"),
   ("imagen-3-fast", "imagen-3.0-fast-generate-001"),
   ("imagen-4", "imagen-4.0-generate-preview-05-20"),
   ("nano-banana", "gemini-2.0-flash-exp"),
   ("nano-banana-pro", "gemini-2.0-flash-exp")]

/-- The prompt composition of `GoogleProvider.generate`
(src/providers/google.ts): `enhancedPrompt = prompt`, then
`enhancedPrompt += " Avoid: " + negativePrompt` when the negative prompt is
truthy. -/
def googleEnhancedPrompt (opts : GenerateOptions) : String :=
  match opts.negativePrompt with
  | some np => if np = "" then opts.prompt else opts.prompt ++ " Avoid: " ++ np
  | none => opts.prompt

/-- The reference-image loop of `GoogleProvider.generate`: each path is read
as base64 (this can throw) and paired with its MIME type as an inline part. -/
def readRefParts (o : GoogleOracle) : List String → Except JsException (List GPart)
  | [] => Except.ok []
  | p :: ps => do
    let base64 ← o.readRef p
    let rest ← readRefParts o ps
    Except.ok (GPart.inlinePart (getMimeType p) base64 :: rest)

/-- First element of an optional list: models optional-chained `?.[0]`. -/
def jsIndex0 {α : Type} (l : Option (List α)) : Option α :=
  match l with
  | none => none
  | some xs => xs.head?

/-- The body of the `try` block of `GoogleProvider.generate`
(src/providers/google.ts): resolve the model name, compose the enhanced
prompt, assemble reference-image parts followed by the text part, call the
backend, and inspect `candidates[0].content.parts[0].inlineData.data`;
missing pieces give the structured failures of the source. -/
def googleTryBody (o : GoogleOracle) (opts : GenerateOptions) :
    Except JsException GenerationResult := do
  let outputPath := jsOrStr opts.output DEFAULT_OPTIONS.output
  let modelName := (assocLookup googleModelMap opts.model).getD "gemini-2.0-flash-exp"
  let enhancedPrompt := googleEnhancedPrompt opts
  let refParts ←
    if truthyList opts.referenceImages then readRefParts o (opts.referenceImages.getD [])
    else pure []
  let parts := refParts ++ [GPart.textPart enhancedPrompt]
  let response ← o.generateContent { modelName := modelName, parts := parts }
  match jsIndex0 response.candidates with
  | none => pure { success := false, error := some "No image generated - check if the prompt was blocked" }
  | some candidate =>
    match jsIndex0 candidate.contentParts with
    | none =>
      pure { success := false, error := some "No image generated - check if the prompt was blocked" }
    | some part =>
      if truthyStr part.inlineDataData then do
        let _ ← o.saveB64 (part.inlineDataData.getD "") outputPath
        pure { success := true
               outputPath := some outputPath
               metadata := some { model := opts.model, prompt := opts.prompt } }
      else
        pure { success := false, error := some "Unexpected response format from Google API" }

/-- The method `GoogleProvider.generate` (src/providers/google.ts) with its
catch clause: the exception message (or the non-`Error` fallback) is
classified, mapping messages containing "SAFETY" to a canned safety-filter
failure and messages containing "quota" or "RESOURCE_EXHAUSTED" to a canned
quota failure, and passed through otherwise. -/
def GoogleProvider.generate (o : GoogleOracle) (opts : GenerateOptions) : GenerationResult :=
  match googleTryBody o opts with
  | Except.ok r => r
  | Except.error e =>
    let errorMessage := jsErrorMessage e
    if strContains errorMessage "SAFETY" then
      { success := false, error := some "Content blocked by safety filters. Try rephrasing your prompt." }
    else if strContains errorMessage "quota" || strContains errorMessage "RESOURCE_EXHAUSTED" then
      { success := false, error := some "API quota exceeded. Please try again later." }
    else
      { success := false, error := some errorMessage }

/-- The aspect-ratio-to-size table `ASPECT_TO_OPENAI_SIZE` of
src/providers/openai.ts. -/
def ASPECT_TO_OPENAI_SIZE : List (String × String) :=
  [("1:1", "1024x1024"),
   ("16:9", "1792x1024"),
   ("9:16", "1024x1792"),
   ("4:3", "1024x1024"),
   ("3:4", "1024x1024"),
   ("3:2", "1792x1024"),
   ("2:3", "1024x1792"),
   ("4:5", "1024x1024"),
   ("5:4", "1024x1024"),
   ("21:9", "1792x1024")]

/-- The size resolution of `OpenAIProvider.generate`:
`options.size || ASPECT_TO_OPENAI_SIZE[aspectRatio] || '1024x1024'`. -/
def openaiSize (opts : GenerateOptions) : String :=
  let aspect := jsOrStr opts.aspectRatio DEFAULT_OPTIONS.aspectRatio
  jsOrStr opts.size ((assocLookup ASPECT_TO_OPENAI_SIZE aspect).getD "1024x1024")

/-- One image entry of the OpenAI response (`b64_json` or `url`). -/
structure OpenAIImageData where
  b64_json : Option String := none
  url : Option String := none
deriving DecidableEq

/-- The OpenAI response; `data` models `response.data` (possibly absent). -/
structure OpenAIResponse where
  respData : Option (List OpenAIImageData) := none
deriving DecidableEq

/-- The standard-generation request built by `OpenAIProvider.generate`
(src/providers/openai.ts, the non-edit branch). -/
structure OpenAIGenRequest where
  model : String
  prompt : String
  n : Nat
  size : String
  quality : String
  background : String
  output_format : String
deriving DecidableEq

/-- The edit-mode request built by `OpenAIProvider.generate`
(src/providers/openai.ts, the reference-image branch). -/
structure OpenAIEditRequest where
  model : String
  imageName : String
  prompt : String
  n : Nat
  size : String
deriving DecidableEq

/-- The external calls `OpenAIProvider.generate` awaits, each able to throw:
preparing the reference image file, the two API entry points, and the two
save paths. -/
structure OpenAIOracle where
  prepFile : String → Except JsException Unit
  imagesEdit : OpenAIEditRequest → Except JsException OpenAIResponse
  imagesGenerate : OpenAIGenRequest → Except JsException OpenAIResponse
  saveB64 : String → String → Except JsException String
  saveUrl : String → String → Except JsException String

/-- The standard-generation request record of `OpenAIProvider.generate`:
the model is pinned to `gpt-image-1`, quality maps `hd` to `high` and
everything else to `medium`, transparency selects the background. -/
def openaiGenRequest (opts : GenerateOptions) : OpenAIGenRequest :=
  { model := "gpt-image-1"
    prompt := opts.prompt
    n := jsOrNat opts.numImages 1
    size := openaiSize opts
    quality := if opts.quality = some "hd" then "high" else "medium"
    background := if opts.transparent then "transparent" else "opaque"
    output_format := "png" }

/-- The edit-request file name: `refImage.split('/').pop() || 'image.png'`. -/
def openaiEditFileName (refImage : String) : String :=
  let nm := String.mk (((splitOnChar '/' refImage.data).getLast?).getD [])
  if nm = "" then "image.png" else nm

/-- The edit-mode request record of `OpenAIProvider.generate`. -/
def openaiEditRequest (opts : GenerateOptions) (refImage : String) : OpenAIEditRequest :=
  { model := "gpt-image-1"
    imageName := openaiEditFileName refImage
    prompt := opts.prompt
    n := jsOrNat opts.numImages 1
    size := openaiSize opts }

/-- The shared response handling of both branches of
`OpenAIProvider.generate`: missing `data[0]` is a structured failure, a
truthy `b64_json` is saved as base64, otherwise a truthy `url` is
downloaded, otherwise a structured failure; `some r` is an early structured
failure and `none` means the image was saved and the branch falls through to
the success return. -/
def openaiHandleData (o : OpenAIOracle) (response : OpenAIResponse) (outputPath : String) :
    Except JsException (Option GenerationResult) :=
  match jsIndex0 response.respData with
  | none => Except.ok (some { success := false, error := some "No image data in response" })
  | some imageData =>
    if truthyStr imageData.b64_json then do
      let _ ← o.saveB64 (imageData.b64_json.getD "") outputPath
      Except.ok none
    else if truthyStr imageData.url then do
      let _ ← o.saveUrl (imageData.url.getD "") outputPath
      Except.ok none
    else Except.ok (some { success := false, error := some "No image data in response" })

/-- The body of the `try` block of `OpenAIProvider.generate`
(src/providers/openai.ts): edit mode exactly when reference images are
present and the model is `gpt-image-1.5`; otherwise standard generation.
The reference image is read from disk (this can throw) before the edit
call. -/
def openaiTryBody (o : OpenAIOracle) (opts : GenerateOptions) :
    Except JsException GenerationResult := do
  let outputPath := jsOrStr opts.output DEFAULT_OPTIONS.output
  let isEditMode := truthyList opts.referenceImages && decide (opts.model = "gpt-image-1.5")
  let early ←
    if isEditMode then do
      let refImage := (opts.referenceImages.getD []).headD ""
      let _ ← o.prepFile refImage
      let response ← o.imagesEdit (openaiEditRequest opts refImage)
      openaiHandleData o response outputPath
    else do
      let response ← o.imagesGenerate (openaiGenRequest opts)
      openaiHandleData o response outputPath
  match early with
  | some r => pure r
  | none =>
    pure { success := true
           outputPath := some outputPath
           metadata := some { model := opts.model, prompt := opts.prompt } }

/-- The method `OpenAIProvider.generate` (src/providers/openai.ts) with its
catch clause: an `OpenAI.APIError` is reported as
`OpenAI API Error (<status>): <message>`, any other `Error` by its message,
and a non-`Error` throw by the generic fallback. -/
def OpenAIProvider.generate (o : OpenAIOracle) (opts : GenerateOptions) : GenerationResult :=
  match openaiTryBody o opts with
  | Except.ok r => r
  | Except.error e =>
    match e with
    | JsException.apiErr status msg =>
      { success := false
        error := some ("OpenAI API Error (" ++ toString status ++ "): " ++ msg) }
    | _ => { success := false, error := some (jsErrorMessage e) }

/-- The CLI-capable variant of the Google adapter that coexists in the
source (the `GoogleGenAI` + Gemini-CLI `GoogleProvider`): its state is the
optional API client, set only when a credential variable is truthy. -/
structure GoogleCliProvider where
  client : Option String := none
deriving DecidableEq

/-- Constructor of the CLI-capable `GoogleProvider` variant: it never
throws; with no credential it simply leaves `client` unset
(`if (apiKey) this.client = new GoogleGenAI({apiKey})`). -/
def GoogleCliProvider.construct (env : Env) : Except String GoogleCliProvider :=
  let apiKey := jsOrOptStr env.GOOGLE_API_KEY env.GEMINI_API_KEY
  Except.ok { client := if truthyStr apiKey then apiKey else none }

/-- The `isNanoBanana` predicate of the CLI-capable Google variant. -/
def isNanoBanana (model : String) : Bool :=
  decide (model = "nano-banana") || decide (model = "nano-banana-pro")

/-- The dispatch head of `generate` in the CLI-capable Google variant:
nano-banana models without `--api` run through the Gemini CLI; every other
request takes the API path, which fails at call time with the configuration
message when no client was constructed.  The two branch bodies (the CLI
subprocess interaction and the API body) are irrelevant to the claims and
are supplied as the results `cliResult` and `apiResult`. -/
def GoogleCliProvider.generate (p : GoogleCliProvider) (cliResult apiResult : GenerationResult)
    (opts : GenerateOptions) : GenerationResult :=
  if isNanoBanana opts.model && !opts.useApi then cliResult
  else
    match p.client with
    | none =>
      { success := false
        error := some "GOOGLE_API_KEY or GEMINI_API_KEY environment variable is required. For nanobanana models, omit --api to use Gemini CLI instead." }
    | some _ => apiResult

/-- Observable steps of one orchestrator run (src/cli.ts `program.action`):
generation calls with their output path, the three post-processing steps,
and the fatal-exit report of a failed generation. -/
inductive Event where
  | genCall (i : Nat) (outputPath : String)
  | postRemoveBg (i : Nat)
  | postAddBg (i : Nat)
  | postThumb (i : Nat)
  | exitFail (message : String)
deriving DecidableEq

/-- Truthiness of the `thumbnail` option (a number 0 is falsy, a Boolean is
itself). -/
def truthyThumb (t : Option JsThumb) : Bool :=
  match t with
  | none => false
  | some (JsThumb.num n) => decide (n ≠ 0)
  | some (JsThumb.boolVal b) => b

/-- The post-processing steps the orchestrator runs after a successful
generation of variation `i`, in source order (remove background, add
background color, thumbnail), each guarded by its own flag and by
`result.outputPath` being truthy, exactly as in src/cli.ts. -/
def postSteps (opts : GenerateOptions) (r : GenerationResult) (i : Nat) : List Event :=
  (if opts.removeBg && truthyStr r.outputPath then [Event.postRemoveBg i] else []) ++
  (if truthyStr opts.addBg && truthyStr r.outputPath then [Event.postAddBg i] else []) ++
  (if truthyThumb opts.thumbnail && truthyStr r.outputPath then [Event.postThumb i] else [])

/-- Outcome of one orchestrator run: the trace of observable steps, the
process exit code, and the accumulated `generatedPaths`. -/
structure RunOutcome where
  trace : List Event
  exitCode : Nat
  generatedPaths : List String
deriving DecidableEq

/-- The orchestrator loop of src/cli.ts over the (ordered) list of remaining
variation indices: each iteration computes the output path, calls the
provider (`gen i outputPath` stands for `provider.generate({...options,
output: outputPath})`), exits with code 1 and the failure report when the
result is unsuccessful, and otherwise runs the post-processing steps,
records the path, and continues. -/
def runList (opts : GenerateOptions) (gen : Nat → String → GenerationResult) (base : String)
    (isMult : Bool) : List Nat → RunOutcome
  | [] => { trace := [], exitCode := 0, generatedPaths := [] }
  | i :: rest =>
    let outputPath := variationPath base isMult i
    let r := gen i outputPath
    if r.success then
      let tail := runList opts gen base isMult rest
      { trace := Event.genCall i outputPath :: (postSteps opts r i ++ tail.trace)
        exitCode := tail.exitCode
        generatedPaths := jsRenderOptStr r.outputPath :: tail.generatedPaths }
    else
      { trace := [Event.genCall i outputPath,
                  Event.exitFail ("Generation failed: " ++ jsRenderOptStr r.error)]
        exitCode := 1
        generatedPaths := [] }

/-- The resolved base output path of the orchestrator
(`options.output || DEFAULT_OPTIONS.output`). -/
def runBaseOutput (opts : GenerateOptions) : String :=
  jsOrStr opts.output DEFAULT_OPTIONS.output

/-- The resolved variation count (`options.variations || 1`). -/
def runVariationCount (opts : GenerateOptions) : Nat :=
  jsOrNat opts.variations 1

/-- The `isMultiple` flag of the orchestrator (`variationCount > 1`). -/
def runIsMultiple (opts : GenerateOptions) : Bool :=
  decide (1 < runVariationCount opts)

/-- One whole orchestrator run: the loop `for (i = 1; i <= variationCount;
i++)` over indices `1..variationCount`. -/
def runVariations (opts : GenerateOptions) (gen : Nat → String → GenerationResult) : RunOutcome :=
  runList opts gen (runBaseOutput opts) (runIsMultiple opts)
    (List.range' 1 (runVariationCount opts))

/-- Projection of a trace event to a generation-call index. -/
def Event.genIdx : Event → Option Nat
  | Event.genCall i _ => some i
  | _ => none

/-- Projection of a trace event to a post-processing index. -/
def Event.postIdx : Event → Option Nat
  | Event.postRemoveBg i => some i
  | Event.postAddBg i => some i
  | Event.postThumb i => some i
  | _ => none

/-- Indices of the generation calls appearing in a trace, in order. -/
def genIndices (tr : List Event) : List Nat :=
  tr.filterMap Event.genIdx

/-- Indices of the post-processing steps appearing in a trace, in order. -/
def postIndices (tr : List Event) : List Nat :=
  tr.filterMap Event.postIdx

/-- Trace block contributed by a list of all-successful variations. -/
def okEvents (opts : GenerateOptions) (gen : Nat → String → GenerationResult) (base : String)
    (isMult : Bool) (l : List Nat) : List Event :=
  l.flatMap (fun j =>
    Event.genCall j (variationPath base isMult j) ::
      postSteps opts (gen j (variationPath base isMult j)) j)

/-- Environment with no credential variables set. -/
def envNoKeys : Env := {}

/-- Environment with all three credentials present. -/
def envAllKeys : Env :=
  { REPLICATE_API_TOKEN := some "r-key"
    OPENAI_API_KEY := some "o-key"
    GOOGLE_API_KEY := some "g-key" }

/-- Environment with only the Google credential present. -/
def envOnlyGoogle : Env := { GOOGLE_API_KEY := some "g-key" }

/-- Initial registry state of a fresh process: empty cache, no instance yet. -/
def registryInit : RegistryState := {}

/-- The Replicate instance allocated by a fresh process. -/
def fluxInstance : PInstance := { provider := Provider.replicate, id := 0 }

/-- The registry state after the Replicate instance has been constructed and
cached. -/
def registryAfterFlux : RegistryState :=
  { providers := [(Provider.replicate, fluxInstance)], nextId := 1 }

/-- Request fixture: a plain Replicate generation. -/
def c4rOpts : GenerateOptions := { model := "flux", prompt := "a cat" }

/-- Request fixture: a plain Google generation. -/
def c4gOpts : GenerateOptions := { model := "imagen-3", prompt := "a cat" }

/-- Request fixture: a plain OpenAI generation. -/
def c4oOpts : GenerateOptions := { model := "gpt-image-1", prompt := "a cat" }

/-- Replicate oracle whose backend call throws `Error("boom")`. -/
def oReplicateBoom : ReplicateOracle :=
  { readRef := fun _ => Except.error JsException.nonError
    run := fun _ _ => Except.error (JsException.err "boom")
    save := fun _ _ => Except.error JsException.nonError }

/-- Google oracle whose backend call throws `Error("SAFETY")`. -/
def oGoogleSafety : GoogleOracle :=
  { readRef := fun _ => Except.error JsException.nonError
    generateContent := fun _ => Except.error (JsException.err "SAFETY")
    saveB64 := fun _ _ => Except.error JsException.nonError }

/-- Google oracle whose backend call throws `Error("boom")`. -/
def oGoogleBoom : GoogleOracle :=
  { readRef := fun _ => Except.error JsException.nonError
    generateContent := fun _ => Except.error (JsException.err "boom")
    saveB64 := fun _ _ => Except.error JsException.nonError }

/-- OpenAI oracle whose backend call throws an `APIError` with status 429. -/
def oOpenAIApi : OpenAIOracle :=
  { prepFile := fun _ => Except.error JsException.nonError
    imagesEdit := fun _ => Except.error (JsException.apiErr 429 "rate limited")
    imagesGenerate := fun _ => Except.error (JsException.apiErr 429 "rate limited")
    saveB64 := fun _ _ => Except.error JsException.nonError
    saveUrl := fun _ _ => Except.error JsException.nonError }

/-- Google oracle whose backend call throws `Error("quota exceeded")`. -/
def oGoogleQuota : GoogleOracle :=
  { readRef := fun _ => Except.error JsException.nonError
    generateContent := fun _ => Except.error (JsException.err "quota exceeded")
    saveB64 := fun _ _ => Except.error JsException.nonError }

/-- Replicate oracle whose backend call throws an `APIError` with status
429 (an `Error` subclass, so its message is reported as-is). -/
def oReplicateApi : ReplicateOracle :=
  { readRef := fun _ => Except.error JsException.nonError
    run := fun _ _ => Except.error (JsException.apiErr 429 "rate limited")
    save := fun _ _ => Except.error JsException.nonError }

/-- Request fixture with a negative prompt, routed to Replicate. -/
def c5Opts : GenerateOptions :=
  { model := "flux", prompt := "a cat", negativePrompt := some "blur" }

/-- Request fixture with a negative prompt, routed to Google. -/
def c5gOpts : GenerateOptions :=
  { model := "imagen-3", prompt := "a cat", negativePrompt := some "blur" }

/-- Request fixture taking the API path of the CLI-capable Google variant. -/
def c6Opts : GenerateOptions := { model := "imagen-3", prompt := "x" }

/-- Placeholder generation result for the abstracted branch bodies of the
CLI-capable Google variant. -/
def dummyResult : GenerationResult := { success := true }

/-- Orchestrator fixture: three variations requested. -/
def c8wOpts : GenerateOptions :=
  { model := "flux", prompt := "x", variations := some 3, output := some "/tmp/o.png" }

/-- Provider behaviour fixture: variation 2 fails with "boom", the others
succeed. -/
def c8wGen : Nat → String → GenerationResult := fun i _ =>
  if i = 2 then { success := false, error := some "boom" }
  else { success := true, outputPath := some "/tmp/x.png" }

theorem mapGet_mapSet_self (m : List (Provider × PInstance)) (p : Provider) (v : PInstance) :
    mapGet (mapSet m p v) p = some v := by
  induction m with
  | nil => simp [mapSet, mapGet]
  | cons hd tl ih =>
    obtain ⟨q, w⟩ := hd
    by_cases hq : q = p
    · subst hq; simp [mapSet, mapGet]
    · simp [mapSet, mapGet, hq, ih]

theorem getOrCreateProvider_hit (env : Env) (p : Provider) (st : RegistryState)
    (inst : PInstance) (h : mapGet st.providers p = some inst) :
    getOrCreateProvider env p st = (Except.ok inst, st) := by
  unfold getOrCreateProvider
  rw [h]

theorem getOrCreateProvider_miss_err (env : Env) (p : Provider) (st : RegistryState)
    (e : String) (h2 : mapGet st.providers p = none)
    (h3 : constructProvider env p st.nextId = Except.error e) :
    getOrCreateProvider env p st = (Except.error e, st) := by
  unfold getOrCreateProvider
  rw [h2, h3]

theorem getOrCreateProvider_miss_ok (env : Env) (p : Provider) (st : RegistryState)
    (inst : PInstance) (h2 : mapGet st.providers p = none)
    (h3 : constructProvider env p st.nextId = Except.ok inst) :
    getOrCreateProvider env p st =
      (Except.ok inst, { providers := mapSet st.providers p inst, nextId := st.nextId + 1 }) := by
  unfold getOrCreateProvider
  rw [h2, h3]

theorem getProviderForModel_routed (env : Env) (m : String) (st : RegistryState) (p : Provider)
    (h : assocLookup MODEL_TO_PROVIDER m = some p) :
    getProviderForModel env m st = getOrCreateProvider env p st := by
  unfold getProviderForModel
  rw [h]

theorem getOrCreateProvider_ok_lookup (env : Env) (p : Provider) (st st1 : RegistryState)
    (i : PInstance) (h : getOrCreateProvider env p st = (Except.ok i, st1)) :
    mapGet st1.providers p = some i := by
  cases hg : mapGet st.providers p with
  | some inst =>
    rw [getOrCreateProvider_hit env p st inst hg] at h
    simp only [Prod.mk.injEq, Except.ok.injEq] at h
    obtain ⟨hA, hB⟩ := h
    subst hA
    subst hB
    exact hg
  | none =>
    cases hcp : constructProvider env p st.nextId with
    | error e =>
      rw [getOrCreateProvider_miss_err env p st e hg hcp] at h
      simp at h
    | ok inst =>
      rw [getOrCreateProvider_miss_ok env p st inst hg hcp] at h
      simp only [Prod.mk.injEq, Except.ok.injEq] at h
      obtain ⟨hA, hB⟩ := h
      subst hA
      rw [← hB]
      exact mapGet_mapSet_self st.providers p inst

/-- C1: for every model string absent from the routing table,
`getProviderForModel` throws the configuration error naming the unknown
model (and the available models) and leaves the registry untouched; in
particular it never yields a provider instance for such a model. -/
theorem C1_unknown_model_is_config_error (env : Env) (st : RegistryState) (model : String)
    (h : assocLookup MODEL_TO_PROVIDER model = none) :
    getProviderForModel env model st =
      (Except.error ("Unknown model: " ++ model ++ ". Available models: " ++ availableModelsStr),
       st) := by
  unfold getProviderForModel
  rw [h]

/-- Witness for C1 at the concrete unknown model string "sdxl". -/
theorem C1_witness :
    assocLookup MODEL_TO_PROVIDER "sdxl" = none ∧
    getProviderForModel envAllKeys "sdxl" registryInit =
      (Except.error ("Unknown model: " ++ "sdxl" ++ ". Available models: " ++ availableModelsStr),
       registryInit) :=
  ⟨by decide, C1_unknown_model_is_config_error envAllKeys registryInit "sdxl" (by decide)⟩

/-- C2: two models routed to the same provider yield the identical cached
instance: the instance produced by the first call is found in the cache by
the second call, which also leaves the state unchanged. -/
theorem C2_same_provider_same_instance (env : Env) (st st1 st2 : RegistryState)
    (m1 m2 : String) (p : Provider) (i1 i2 : PInstance)
    (h1 : assocLookup MODEL_TO_PROVIDER m1 = some p)
    (h2 : assocLookup MODEL_TO_PROVIDER m2 = some p)
    (h3 : getProviderForModel env m1 st = (Except.ok i1, st1))
    (h4 : getProviderForModel env m2 st1 = (Except.ok i2, st2)) :
    i2 = i1 ∧ st2 = st1 := by
  have hc : mapGet st1.providers p = some i1 := by
    rw [getProviderForModel_routed env m1 st p h1] at h3
    exact getOrCreateProvider_ok_lookup env p st st1 i1 h3
  rw [getProviderForModel_routed env m2 st1 p h2, getOrCreateProvider_hit env p st1 i1 hc] at h4
  simp only [Prod.mk.injEq, Except.ok.injEq] at h4
  exact ⟨h4.1.symm, h4.2.symm⟩

/-- Witness for C2: "flux" and "flux-schnell" both route to Replicate; the
second call returns the instance cached by the first. -/
theorem C2_witness :
    assocLookup MODEL_TO_PROVIDER "flux" = some Provider.replicate ∧
    assocLookup MODEL_TO_PROVIDER "flux-schnell" = some Provider.replicate ∧
    getProviderForModel envAllKeys "flux" registryInit = (Except.ok fluxInstance, registryAfterFlux) ∧
    getProviderForModel envAllKeys "flux-schnell" registryAfterFlux =
      (Except.ok fluxInstance, registryAfterFlux) ∧
    fluxInstance = fluxInstance :=
  ⟨by decide, by decide, rfl, rfl,
    (C2_same_provider_same_instance envAllKeys registryInit registryAfterFlux registryAfterFlux
      "flux" "flux-schnell" Provider.replicate fluxInstance fluxInstance
      (by decide) (by decide) rfl rfl).1⟩

/-- C3: when the provider constructor throws, the failure propagates through
`getProviderForModel`, the cache is left exactly as it was (no entry for
that provider), and a later call for the same model with a successful
constructor constructs and caches a fresh instance instead of replaying a
cached failure. -/
theorem C3_constructor_failure_not_cached (env env2 : Env) (st : RegistryState) (m : String)
    (p : Provider) (e : String)
    (h1 : assocLookup MODEL_TO_PROVIDER m = some p)
    (h2 : mapGet st.providers p = none)
    (h3 : constructProvider env p st.nextId = Except.error e) :
    getProviderForModel env m st = (Except.error e, st) ∧
    (∀ i, constructProvider env2 p st.nextId = Except.ok i →
      getProviderForModel env2 m st =
        (Except.ok i, { providers := mapSet st.providers p i, nextId := st.nextId + 1 })) := by
  constructor
  · rw [getProviderForModel_routed env m st p h1]
    exact getOrCreateProvider_miss_err env p st e h2 h3
  · intro i hi
    rw [getProviderForModel_routed env2 m st p h1]
    exact getOrCreateProvider_miss_ok env2 p st i h2 hi

/-- Witness for C3: with no Replicate token the "flux" request throws and
leaves the registry empty; with the token present the same state retries and
constructs the instance. -/
theorem C3_witness :
    mapGet registryInit.providers Provider.replicate = none ∧
    ReplicateProvider.construct envOnlyGoogle 0 =
      Except.error "REPLICATE_API_TOKEN environment variable is required" ∧
    getProviderForModel envOnlyGoogle "flux" registryInit =
      (Except.error "REPLICATE_API_TOKEN environment variable is required", registryInit) ∧
    getProviderForModel envAllKeys "flux" registryInit =
      (Except.ok fluxInstance, registryAfterFlux) := by
  have h := C3_constructor_failure_not_cached envOnlyGoogle envAllKeys registryInit "flux"
    Provider.replicate "REPLICATE_API_TOKEN environment variable is required"
    (by decide) rfl rfl
  exact ⟨rfl, rfl, h.1, h.2 fluxInstance rfl⟩

/-- C10: `listModels` is effect-free: in every registry state it returns the
full routing table (one entry per model, in table order) and passes the
state through unchanged, so no provider is ever constructed, regardless of
which credentials exist in the environment (it reads none). -/
theorem C10_listModels_pure (st : RegistryState) :
    listModels st =
      ([("flux", Provider.replicate),
        ("flux-schnell", Provider.replicate),
        ("flux-pro", Provider.replicate),
        ("gpt-image-1", Provider.openai),
        ("gpt-image-1.5", Provider.openai),
        ("imagen-3", Provider.google),
        ("imagen-3-fast", Provider.google),
        ("imagen-4", Provider.google),
        ("nano-banana", Provider.google),
        ("nano-banana-pro", Provider.google)], st) ∧
    ((listModels st).1.map Prod.fst).Nodup ∧
    (listModels st).1.all (fun e => decide (assocLookup MODEL_TO_PROVIDER e.1 = some e.2)) = true ∧
    (listModels st).2 = st := by
  refine ⟨rfl, ?_, ?_, rfl⟩
  · show ((MODEL_TO_PROVIDER.map (fun e => (e.1, e.2))).map Prod.fst).Nodup
    decide
  · show (MODEL_TO_PROVIDER.map (fun e => (e.1, e.2))).all
      (fun e => decide (assocLookup MODEL_TO_PROVIDER e.1 = some e.2)) = true
    decide

/-- Witness for C10 at the fresh registry state. -/
theorem C10_witness :
    listModels registryInit =
      ([("flux", Provider.replicate),
        ("flux-schnell", Provider.replicate),
        ("flux-pro", Provider.replicate),
        ("gpt-image-1", Provider.openai),
        ("gpt-image-1.5", Provider.openai),
        ("imagen-3", Provider.google),
        ("imagen-3-fast", Provider.google),
        ("imagen-4", Provider.google),
        ("nano-banana", Provider.google),
        ("nano-banana-pro", Provider.google)], registryInit) :=
  (C10_listModels_pure registryInit).1

/-- C4 as stated is false: the claim requires the failure error string to be
the exception message whenever one is available, but the Google catch clause
replaces a message containing "SAFETY" by a canned safety-filter string (and
the OpenAI catch clause reformats `APIError` messages).  Concretely, an
exception `Error("SAFETY")` thrown inside the Google `generate` produces the
canned message, not "SAFETY". -/
theorem C4_counterexample :
    GoogleProvider.generate oGoogleSafety c4gOpts =
      { success := false,
        error := some "Content blocked by safety filters. Try rephrasing your prompt." } ∧
    jsErrorMessage (JsException.err "SAFETY") = "SAFETY" ∧
    (some "Content blocked by safety filters. Try rephrasing your prompt." : Option String) ≠
      some "SAFETY" := by
  refine ⟨by decide, rfl, by decide⟩

/-- C4 amended: no provider `generate` ever throws — every exception raised
inside the `try` body is converted into the failure variant of the result.
The error string is the exception message when one is available (including
an `APIError` thrown inside the Replicate adapter, whose message passes
through unchanged), except that the Google catch clause maps messages
containing "SAFETY" to a canned safety string and messages containing
"quota" or "RESOURCE_EXHAUSTED" (without "SAFETY", which takes precedence)
to a canned quota string, and the OpenAI catch clause formats an `APIError`
as `OpenAI API Error (<status>): <message>`; a non-`Error` throw yields the
generic fallback "Unknown error occurred" in all three providers. -/
theorem C4_generate_never_throws (opts : GenerateOptions) (m : String) (s : Nat) :
    (∀ (oR : ReplicateOracle) (mid : String),
      assocLookup FLUX_MODELS opts.model = some mid →
      (replicateTryBody oR opts mid = Except.error (JsException.err m) →
        ReplicateProvider.generate oR opts = { success := false, error := some m }) ∧
      (replicateTryBody oR opts mid = Except.error JsException.nonError →
        ReplicateProvider.generate oR opts =
          { success := false, error := some "Unknown error occurred" }) ∧
      (replicateTryBody oR opts mid = Except.error (JsException.apiErr s m) →
        ReplicateProvider.generate oR opts = { success := false, error := some m })) ∧
    (∀ oG : GoogleOracle,
      (googleTryBody oG opts = Except.error (JsException.err m) →
        strContains m "SAFETY" = false → strContains m "quota" = false →
        strContains m "RESOURCE_EXHAUSTED" = false →
        GoogleProvider.generate oG opts = { success := false, error := some m }) ∧
      (googleTryBody oG opts = Except.error (JsException.err m) →
        strContains m "SAFETY" = true →
        GoogleProvider.generate oG opts =
          { success := false,
            error := some "Content blocked by safety filters. Try rephrasing your prompt." }) ∧
      (googleTryBody oG opts = Except.error (JsException.err m) →
        strContains m "SAFETY" = false →
        (strContains m "quota" || strContains m "RESOURCE_EXHAUSTED") = true →
        GoogleProvider.generate oG opts =
          { success := false,
            error := some "API quota exceeded. Please try again later." }) ∧
      (googleTryBody oG opts = Except.error JsException.nonError →
        GoogleProvider.generate oG opts =
          { success := false, error := some "Unknown error occurred" })) ∧
    (∀ oO : OpenAIOracle,
      (openaiTryBody oO opts = Except.error (JsException.err m) →
        OpenAIProvider.generate oO opts = { success := false, error := some m }) ∧
      (openaiTryBody oO opts = Except.error (JsException.apiErr s m) →
        OpenAIProvider.generate oO opts =
          { success := false,
            error := some ("OpenAI API Error (" ++ toString s ++ "): " ++ m) }) ∧
      (openaiTryBody oO opts = Except.error JsException.nonError →
        OpenAIProvider.generate oO opts =
          { success := false, error := some "Unknown error occurred" })) := by
  refine ⟨?_, ?_, ?_⟩
  · intro oR mid hmid
    have hroute : ReplicateProvider.generate oR opts =
        (match replicateTryBody oR opts mid with
          | Except.ok r => r
          | Except.error e => { success := false, error := some (jsErrorMessage e) }) := by
      unfold ReplicateProvider.generate
      rw [hmid]
    refine ⟨?_, ?_, ?_⟩
    · intro hb
      rw [hroute, hb]
      rfl
    · intro hb
      rw [hroute, hb]
      rfl
    · intro hb
      rw [hroute, hb]
      rfl
  · intro oG
    refine ⟨?_, ?_, ?_, ?_⟩
    · intro hb hs hq1 hq2
      unfold GoogleProvider.generate
      rw [hb]
      simp only [jsErrorMessage, hs, hq1, hq2]
      rfl
    · intro hb hs
      unfold GoogleProvider.generate
      rw [hb]
      simp only [jsErrorMessage, hs]
      rfl
    · intro hb hs hq
      unfold GoogleProvider.generate
      rw [hb]
      simp only [jsErrorMessage, hs, hq]
      rfl
    · intro hb
      unfold GoogleProvider.generate
      rw [hb]
      rfl
  · intro oO
    refine ⟨?_, ?_, ?_⟩
    · intro hb
      rw [OpenAIProvider.generate, hb]
      rfl
    · intro hb
      rw [OpenAIProvider.generate, hb]
    · intro hb
      rw [OpenAIProvider.generate, hb]
      rfl

/-- Witness for C4 at concrete throwing oracles for each provider,
covering the passthrough, safety-free quota, and `APIError` cases. -/
theorem C4_witness :
    ReplicateProvider.generate oReplicateBoom c4rOpts =
      { success := false, error := some "boom" } ∧
    ReplicateProvider.generate oReplicateApi c4rOpts =
      { success := false, error := some "rate limited" } ∧
    GoogleProvider.generate oGoogleBoom c4gOpts =
      { success := false, error := some "boom" } ∧
    GoogleProvider.generate oGoogleQuota c4gOpts =
      { success := false, error := some "API quota exceeded. Please try again later." } ∧
    OpenAIProvider.generate oOpenAIApi c4oOpts =
      { success := false, error := some "OpenAI API Error (429): rate limited" } := by
  refine ⟨?_, ?_, ?_, ?_, ?_⟩
  · exact ((C4_generate_never_throws c4rOpts "boom" 0).1 oReplicateBoom
      "black-forest-labs/flux-1.1-pro" rfl).1 rfl
  · exact ((C4_generate_never_throws c4rOpts "rate limited" 429).1 oReplicateApi
      "black-forest-labs/flux-1.1-pro" rfl).2.2 rfl
  · exact ((C4_generate_never_throws c4gOpts "boom" 0).2.1 oGoogleBoom).1 rfl
      (by decide) (by decide) (by decide)
  · exact ((C4_generate_never_throws c4gOpts "quota exceeded" 0).2.1 oGoogleQuota).2.2.1 rfl
      (by decide) (by decide)
  · exact ((C4_generate_never_throws c4oOpts "rate limited" 429).2.2 oOpenAIApi).2.1 rfl

/-- C5 as stated is false: only the Google adapter appends the negative
prompt as an " Avoid: ..." suffix clause.  The Replicate adapter submits the
main prompt unchanged and passes the negative prompt as the separate
`negative_prompt` input field, and the OpenAI adapter submits the main
prompt unchanged (ignoring the negative prompt).  Concretely, for the
Replicate request with prompt "a cat" and negative prompt "blur" the
submitted prompt is "a cat", which does not end in " Avoid: blur". -/
theorem C5_counterexample :
    truthyStr c5Opts.negativePrompt = true ∧
    (buildReplicateInput c5Opts).prompt = "a cat" ∧
    strEndsWith (buildReplicateInput c5Opts).prompt (" Avoid: " ++ "blur") = false ∧
    (buildReplicateInput c5Opts).negative_prompt = some "blur" ∧
    (openaiGenRequest c5Opts).prompt = "a cat" ∧
    strEndsWith (openaiGenRequest c5Opts).prompt (" Avoid: " ++ "blur") = false := by
  refine ⟨by decide, rfl, by decide, rfl, rfl, by decide⟩

/-- C5 amended: for a request with a non-empty negative prompt, the Google
adapter submits the main prompt with the suffix clause " Avoid:
<negativePrompt>" appended (so the composed prompt ends in that clause); the
Replicate adapter submits the main prompt unchanged and carries the negative
prompt in the dedicated `negative_prompt` input field; the OpenAI adapter
submits the main prompt unchanged. -/
theorem C5_negative_prompt_composition (opts : GenerateOptions) (np : String)
    (h1 : opts.negativePrompt = some np) (h2 : np ≠ "") :
    googleEnhancedPrompt opts = opts.prompt ++ " Avoid: " ++ np ∧
    strEndsWith (googleEnhancedPrompt opts) (" Avoid: " ++ np) = true ∧
    (buildReplicateInput opts).prompt = opts.prompt ∧
    (buildReplicateInput opts).negative_prompt = some np ∧
    (openaiGenRequest opts).prompt = opts.prompt := by
  have hg : googleEnhancedPrompt opts = opts.prompt ++ " Avoid: " ++ np := by
    unfold googleEnhancedPrompt
    rw [h1]
    simp [h2]
  refine ⟨hg, ?_, rfl, ?_, rfl⟩
  · rw [hg]
    unfold strEndsWith
    rw [List.isSuffixOf_iff_suffix]
    refine ⟨opts.prompt.data, ?_⟩
    simp [String.data_append, List.append_assoc]
  · unfold buildReplicateInput
    simp [truthyStr, h1, h2]

/-- Witness for C5 at a concrete Google-routed request with negative prompt
"blur". -/
theorem C5_witness :
    googleEnhancedPrompt c5gOpts = "a cat Avoid: blur" ∧
    (buildReplicateInput c5gOpts).negative_prompt = some "blur" := by
  have h := C5_negative_prompt_composition c5gOpts "blur" rfl (by decide)
  constructor
  · rw [h.1]
    rfl
  · exact h.2.2.2.1

/-- C6 as stated is false for the CLI-capable Google variant it cites: with
no credential variables set, that constructor succeeds (leaving the client
unset) instead of raising a configuration error, and the configuration
failure surfaces only at call time on the API path. -/
theorem C6_counterexample :
    GoogleCliProvider.construct envNoKeys = Except.ok { client := none } ∧
    GoogleCliProvider.generate { client := none } dummyResult dummyResult c6Opts =
      { success := false,
        error := some "GOOGLE_API_KEY or GEMINI_API_KEY environment variable is required. For nanobanana models, omit --api to use Gemini CLI instead." } := by
  exact ⟨rfl, rfl⟩

/-- C6 amended: when the relevant credential variables are all unset, the
Replicate and OpenAI constructors and the pure-API Google constructor (the
one the registry instantiates) each raise their configuration error at
construction time; the CLI-capable Google variant instead constructs
successfully with no client and raises the configuration error only at call
time, on any request that takes the API path. -/
theorem C6_fail_fast_construction (env : Env) (fresh : Nat)
    (hR : truthyStr env.REPLICATE_API_TOKEN = false)
    (hO : truthyStr env.OPENAI_API_KEY = false)
    (hG : truthyStr env.GOOGLE_API_KEY = false)
    (hM : truthyStr env.GEMINI_API_KEY = false) :
    ReplicateProvider.construct env fresh =
      Except.error "REPLICATE_API_TOKEN environment variable is required" ∧
    OpenAIProvider.construct env fresh =
      Except.error "OPENAI_API_KEY environment variable is required" ∧
    GoogleProvider.construct env fresh =
      Except.error "GOOGLE_API_KEY or GEMINI_API_KEY environment variable is required" ∧
    GoogleCliProvider.construct env = Except.ok { client := none } ∧
    (∀ (opts : GenerateOptions) (cliResult apiResult : GenerationResult),
      (isNanoBanana opts.model && !opts.useApi) = false →
      GoogleCliProvider.generate { client := none } cliResult apiResult opts =
        { success := false,
          error := some "GOOGLE_API_KEY or GEMINI_API_KEY environment variable is required. For nanobanana models, omit --api to use Gemini CLI instead." }) := by
  refine ⟨?_, ?_, ?_, ?_, ?_⟩
  · unfold ReplicateProvider.construct
    rw [hR]
    rfl
  · unfold OpenAIProvider.construct
    rw [hO]
    rfl
  · unfold GoogleProvider.construct
    unfold jsOrOptStr
    rw [hG]
    simp only [if_false, Bool.false_eq_true, ite_false, hM]
  · unfold GoogleCliProvider.construct
    unfold jsOrOptStr
    rw [hG]
    simp only [Bool.false_eq_true, ite_false, hM]
  · intro opts cliResult apiResult hcond
    unfold GoogleCliProvider.generate
    rw [hcond]
    rfl

/-- Witness for C6 at the empty environment. -/
theorem C6_witness :
    ReplicateProvider.construct envNoKeys 0 =
      Except.error "REPLICATE_API_TOKEN environment variable is required" ∧
    OpenAIProvider.construct envNoKeys 0 =
      Except.error "OPENAI_API_KEY environment variable is required" ∧
    GoogleProvider.construct envNoKeys 0 =
      Except.error "GOOGLE_API_KEY or GEMINI_API_KEY environment variable is required" ∧
    GoogleCliProvider.construct envNoKeys = Except.ok { client := none } := by
  have h := C6_fail_fast_construction envNoKeys 0 rfl rfl rfl rfl
  exact ⟨h.1, h.2.1, h.2.2.1, h.2.2.2.1⟩

theorem drop_append_suffix {t ext l : List Char} (h : t ++ ext = l) :
    l.drop (l.length - ext.length) = ext := by
  subst h
  simp [List.length_append, Nat.add_sub_cancel, List.drop_left]

theorem lower_drop_eq_ext (s : String) (ext : List Char) (k : Nat) (hk : ext.length = k)
    (h : List.isSuffixOf ext (lowerStr s.data) = true) :
    lowerStr (s.data.drop (s.data.length - k)) = ext := by
  obtain ⟨t, ht⟩ := List.isSuffixOf_iff_suffix.mp h
  have hlen : (lowerStr s.data).length = s.data.length := List.length_map _ _
  have hmap : lowerStr (s.data.drop (s.data.length - k)) =
      (lowerStr s.data).drop (s.data.length - k) := by
    unfold lowerStr
    exact List.map_drop _ _ _
  rw [hmap, ← hlen, ← hk]
  exact drop_append_suffix ht

theorem basePath_ext_decomp (s : String) (k : Nat) (h : extMatchLen s.data = some k) :
    basePathOf s ++ extOf s = s := by
  unfold basePathOf extOf
  rw [h]
  show String.mk (s.data.take (s.data.length - k) ++ s.data.drop (s.data.length - k)) = s
  rw [List.take_append_drop]

theorem extOf_lower_mem (s : String) (k : Nat) (h : extMatchLen s.data = some k) :
    lowerStr (extOf s).data ∈
      [String.data ".png", String.data ".jpg", String.data ".jpeg", String.data ".webp"] := by
  unfold extOf
  rw [h]
  show lowerStr (s.data.drop (s.data.length - k)) ∈ _
  unfold extMatchLen at h
  split at h
  next hc =>
    injection h with hk
    subst hk
    rw [lower_drop_eq_ext s (String.data ".png") 4 (by decide) hc]
    simp
  next =>
    split at h
    next hc =>
      injection h with hk
      subst hk
      rw [lower_drop_eq_ext s (String.data ".jpg") 4 (by decide) hc]
      simp
    next =>
      split at h
      next hc =>
        injection h with hk
        subst hk
        rw [lower_drop_eq_ext s (String.data ".jpeg") 5 (by decide) hc]
        simp
      next =>
        split at h
        next hc =>
          injection h with hk
          subst hk
          rw [lower_drop_eq_ext s (String.data ".webp") 5 (by decide) hc]
          simp
        next => exact absurd h (by simp)

/-- C7: for a variation count N between 1 and 10, the orchestrator produces
the output paths in order i = 1..N; with N > 1 each path is the base path
with the matched extension stripped, a -v<i> suffix, and the matched
extension appended (the matched extension is a case-insensitive image
extension and splits the base path exactly; when no extension matches, the
whole base is kept and ".png" is appended); with N = 1 the single path is
the base output path unmodified. -/
theorem C7_variation_path_templating (base : String) (n : Nat)
    (h1 : 1 ≤ n) (h10 : n ≤ 10) :
    (n = 1 → variationPaths base n = [base]) ∧
    (1 < n → variationPaths base n =
      (List.range n).map (fun j => basePathOf base ++ "-v" ++ toString (j + 1) ++ extOf base)) ∧
    (∀ k, extMatchLen base.data = some k →
      basePathOf base ++ extOf base = base ∧
      lowerStr (extOf base).data ∈
        [String.data ".png", String.data ".jpg", String.data ".jpeg", String.data ".webp"]) ∧
    (extMatchLen base.data = none → basePathOf base = base ∧ extOf base = ".png") := by
  refine ⟨?_, ?_, ?_, ?_⟩
  · intro hn
    subst hn
    simp [variationPaths, variationPath]
  · intro hn
    have hd : decide (1 < n) = true := decide_eq_true hn
    simp only [variationPaths, variationPath, hd, if_true]
  · intro k hk
    exact ⟨basePath_ext_decomp base k hk, extOf_lower_mem base k hk⟩
  · intro hk
    unfold basePathOf extOf
    rw [hk]
    exact ⟨rfl, rfl⟩

/-- Witness for C7: the spec example `/tmp/out.png` with 3 variations, and
the single-variation case. -/
theorem C7_witness :
    variationPaths "/tmp/out.png" 3 =
      ["/tmp/out-v1.png", "/tmp/out-v2.png", "/tmp/out-v3.png"] ∧
    variationPaths "/tmp/out.png" 1 = ["/tmp/out.png"] := by
  have h3 := C7_variation_path_templating "/tmp/out.png" 3 (by omega) (by omega)
  have h1 := C7_variation_path_templating "/tmp/out.png" 1 (by omega) (by omega)
  constructor
  · rw [h3.2.1 (by omega)]
    decide
  · exact h1.1 rfl

theorem splitOnChar_ne_nil (c : Char) (l : List Char) : splitOnChar c l ≠ [] := by
  induction l with
  | nil => simp [splitOnChar]
  | cons x xs ih =>
    unfold splitOnChar
    split
    · simp
    · split <;> simp

theorem splitOnChar_not_mem (c : Char) (l : List Char) (h : c ∉ l) : splitOnChar c l = [l] := by
  induction l with
  | nil => rfl
  | cons x xs ih =>
    have hx : x ≠ c := by
      intro he
      exact h (he ▸ List.mem_cons_self x xs)
    have hxs : c ∉ xs := fun hm => h (List.mem_cons_of_mem x hm)
    unfold splitOnChar
    rw [ih hxs]
    simp [hx]

theorem splitOnChar_length2 (c : Char) (l : List Char) (h : c ∈ l) :
    2 ≤ (splitOnChar c l).length := by
  induction l with
  | nil => cases h
  | cons x xs ih =>
    unfold splitOnChar
    cases hrec : splitOnChar c xs with
    | nil => exact absurd hrec (splitOnChar_ne_nil c xs)
    | cons y ys =>
      by_cases hx : x = c
      · simp [hx]
      · have hm : c ∈ xs := by
          rcases List.mem_cons.mp h with h1 | h2
          · exact absurd h1.symm hx
          · exact h2
        have h2 := ih hm
        rw [hrec] at h2
        simp only [List.length_cons] at h2 ⊢
        simp [hx]
        omega

theorem splitOnChar_getLast (c : Char) (a b : List Char) (hb : c ∉ b) :
    (splitOnChar c (a ++ c :: b)).getLast? = some b := by
  induction a with
  | nil =>
    show (splitOnChar c (c :: b)).getLast? = some b
    unfold splitOnChar
    rw [splitOnChar_not_mem c b hb]
    simp
  | cons x xs ih =>
    show (splitOnChar c (x :: (xs ++ c :: b))).getLast? = some b
    unfold splitOnChar
    cases hrec : splitOnChar c (xs ++ c :: b) with
    | nil => exact absurd hrec (splitOnChar_ne_nil _ _)
    | cons y ys =>
      have hlen : 2 ≤ (y :: ys).length := by
        rw [← hrec]
        exact splitOnChar_length2 c _ (by simp)
      cases ys with
      | nil => simp at hlen
      | cons z zs =>
        have hlast : (y :: z :: zs).getLast? = some b := by
          rw [← hrec]
          exact ih
        have h2 : (z :: zs).getLast? = some b := by
          rw [List.getLast?_cons_cons] at hlast
          exact hlast
        by_cases hx : x = c
        · simp only [hx, ite_true]
          rw [List.getLast?_cons_cons]
          exact hlast
        · simp only [hx, ite_false]
          rw [List.getLast?_cons_cons]
          exact h2

theorem getMimeType_of_suffix (p : String) (e t : List Char)
    (ht : t ++ ('.' :: e) = lowerStr p.data) (he : ('.' : Char) ∉ e) :
    getMimeType p = (assocLookup mimeTypes (String.mk e)).getD "image/png" := by
  show (assocLookup mimeTypes
      (String.mk (((splitOnChar '.' (lowerStr p.data)).getLast?).getD []))).getD "image/png" =
    (assocLookup mimeTypes (String.mk e)).getD "image/png"
  rw [← ht, splitOnChar_getLast '.' t e he]
  rfl

/-- C9 as stated is false: the claim says every input not ending in one of
the five dotted extensions falls back to "image/png", but `getMimeType`
keys on the substring after the last dot (the whole string when there is no
dot), so the dotless input "jpg" maps to "image/jpeg", not to the
fallback. -/
theorem C9_counterexample :
    getMimeType "jpg" = "image/jpeg" ∧
    ("image/jpeg" : String) ≠ "image/png" ∧
    endsWithCI "jpg" ".png" = false ∧
    endsWithCI "jpg" ".jpg" = false ∧
    endsWithCI "jpg" ".jpeg" = false ∧
    endsWithCI "jpg" ".webp" = false ∧
    endsWithCI "jpg" ".gif" = false := by
  decide

/-- C9 amended: `getMimeType` is total and keys case-insensitively on the
substring after the last dot: any path ending in ".png" maps to
"image/png", ".jpg" or ".jpeg" to "image/jpeg", ".webp" to "image/webp",
".gif" to "image/gif", and any input whose after-last-dot component is not
one of the five table keys (for example "a.xyz") maps to the default
"image/png" (a dotless input equal to a bare key, such as "jpg", still maps
through the table). -/
theorem C9_getMimeType_mapping (p : String) :
    (endsWithCI p ".png" = true → getMimeType p = "image/png") ∧
    (endsWithCI p ".jpg" = true → getMimeType p = "image/jpeg") ∧
    (endsWithCI p ".jpeg" = true → getMimeType p = "image/jpeg") ∧
    (endsWithCI p ".webp" = true → getMimeType p = "image/webp") ∧
    (endsWithCI p ".gif" = true → getMimeType p = "image/gif") ∧
    (assocLookup mimeTypes
        (String.mk (((splitOnChar '.' (lowerStr p.data)).getLast?).getD [])) = none →
      getMimeType p = "image/png") := by
  refine ⟨?_, ?_, ?_, ?_, ?_, ?_⟩
  · intro h
    obtain ⟨t, ht⟩ := List.isSuffixOf_iff_suffix.mp h
    have hconv : String.data ".png" = '.' :: String.data "png" := by decide
    rw [hconv] at ht
    rw [getMimeType_of_suffix p (String.data "png") t ht (by decide)]
    decide
  · intro h
    obtain ⟨t, ht⟩ := List.isSuffixOf_iff_suffix.mp h
    have hconv : String.data ".jpg" = '.' :: String.data "jpg" := by decide
    rw [hconv] at ht
    rw [getMimeType_of_suffix p (String.data "jpg") t ht (by decide)]
    decide
  · intro h
    obtain ⟨t, ht⟩ := List.isSuffixOf_iff_suffix.mp h
    have hconv : String.data ".jpeg" = '.' :: String.data "jpeg" := by decide
    rw [hconv] at ht
    rw [getMimeType_of_suffix p (String.data "jpeg") t ht (by decide)]
    decide
  · intro h
    obtain ⟨t, ht⟩ := List.isSuffixOf_iff_suffix.mp h
    have hconv : String.data ".webp" = '.' :: String.data "webp" := by decide
    rw [hconv] at ht
    rw [getMimeType_of_suffix p (String.data "webp") t ht (by decide)]
    decide
  · intro h
    obtain ⟨t, ht⟩ := List.isSuffixOf_iff_suffix.mp h
    have hconv : String.data ".gif" = '.' :: String.data "gif" := by decide
    rw [hconv] at ht
    rw [getMimeType_of_suffix p (String.data "gif") t ht (by decide)]
    decide
  · intro h
    show (assocLookup mimeTypes
        (String.mk (((splitOnChar '.' (lowerStr p.data)).getLast?).getD []))).getD "image/png" =
      "image/png"
    rw [h]
    rfl

/-- Witness for C9 at the spec examples "a.PNG" (case-insensitive hit) and
"a.xyz" (fallback). -/
theorem C9_witness :
    endsWithCI "a.PNG" ".png" = true ∧ getMimeType "a.PNG" = "image/png" ∧
    getMimeType "a.xyz" = "image/png" :=
  ⟨by decide, (C9_getMimeType_mapping "a.PNG").1 (by decide),
    (C9_getMimeType_mapping "a.xyz").2.2.2.2.2 (by decide)⟩

theorem postSteps_no_gen (opts : GenerateOptions) (r : GenerationResult) (i : Nat) :
    (postSteps opts r i).filterMap Event.genIdx = [] := by
  unfold postSteps
  split <;> split <;> split <;> rfl

theorem postSteps_post_idx (opts : GenerateOptions) (r : GenerationResult) (i j : Nat)
    (h : j ∈ (postSteps opts r i).filterMap Event.postIdx) : j = i := by
  unfold postSteps at h
  split at h <;> split at h <;> split at h <;>
    simp [Event.postIdx, List.filterMap_append, List.filterMap_cons] at h <;> simp_all

theorem genIndices_okEvents (opts : GenerateOptions) (gen : Nat → String → GenerationResult)
    (base : String) (isMult : Bool) (l : List Nat) :
    genIndices (okEvents opts gen base isMult l) = l := by
  induction l with
  | nil => rfl
  | cons x xs ih =>
    unfold okEvents at ih ⊢
    unfold genIndices at ih ⊢
    rw [List.flatMap_cons]
    simp only [List.filterMap_append, List.filterMap_cons, Event.genIdx, postSteps_no_gen, ih]
    rfl

theorem postIndices_okEvents_mem (opts : GenerateOptions) (gen : Nat → String → GenerationResult)
    (base : String) (isMult : Bool) (l : List Nat) (j : Nat)
    (h : j ∈ postIndices (okEvents opts gen base isMult l)) : j ∈ l := by
  induction l with
  | nil => simp [okEvents, postIndices, genIndices] at h
  | cons x xs ih =>
    unfold okEvents at h
    rw [List.flatMap_cons] at h
    unfold postIndices at h ih
    simp only [List.filterMap_append, List.filterMap_cons, Event.postIdx] at h
    rw [List.mem_append] at h
    rcases h with h | h
    · have := postSteps_post_idx opts (gen x (variationPath base isMult x)) x j h
      subst this
      exact List.mem_cons_self j xs
    · exact List.mem_cons_of_mem x (ih h)

theorem runList_prefix_ok (opts : GenerateOptions) (gen : Nat → String → GenerationResult)
    (base : String) (isMult : Bool) (k : Nat) (rest : List Nat)
    (hfail : (gen k (variationPath base isMult k)).success = false) :
    ∀ l : List Nat,
      (∀ j ∈ l, (gen j (variationPath base isMult j)).success = true) →
      runList opts gen base isMult (l ++ k :: rest) =
        { trace := okEvents opts gen base isMult l ++
            [Event.genCall k (variationPath base isMult k),
             Event.exitFail ("Generation failed: " ++
               jsRenderOptStr (gen k (variationPath base isMult k)).error)]
          exitCode := 1
          generatedPaths :=
            l.map (fun j => jsRenderOptStr (gen j (variationPath base isMult j)).outputPath) } := by
  intro l
  induction l with
  | nil =>
    intro _
    show runList opts gen base isMult (k :: rest) = _
    simp [runList, okEvents, hfail]
  | cons x xs ih =>
    intro hall
    have hx : (gen x (variationPath base isMult x)).success = true := hall x (by simp)
    have hrest : ∀ j ∈ xs, (gen j (variationPath base isMult j)).success = true :=
      fun j hj => hall j (List.mem_cons_of_mem x hj)
    show runList opts gen base isMult (x :: (xs ++ k :: rest)) = _
    simp only [runList, hx, ite_true]
    rw [ih hrest]
    unfold okEvents
    rw [List.flatMap_cons]
    simp [List.append_assoc]

theorem range'_split (n k : Nat) (hk1 : 1 ≤ k) (hk2 : k ≤ n) :
    List.range' 1 n = List.range' 1 (k - 1) ++ k :: List.range' (k + 1) (n - k) := by
  have h1 := List.range'_append_1 1 (k - 1) ((n - k) + 1)
  have e1 : 1 + (k - 1) = k := by omega
  have e2 : ((n - k) + 1) + (k - 1) = n := by omega
  rw [e1, e2] at h1
  have h2 : List.range' k ((n - k) + 1) = k :: List.range' (k + 1) (n - k) :=
    List.range'_succ k (n - k) 1
  rw [h2] at h1
  exact h1.symm

theorem range'_snoc (k : Nat) (hk : 1 ≤ k) :
    List.range' 1 k = List.range' 1 (k - 1) ++ [k] := by
  have h1 := List.range'_append_1 1 (k - 1) 1
  have e1 : 1 + (k - 1) = k := by omega
  rw [e1] at h1
  have h3 : List.range' k 1 = [k] := rfl
  rw [h3] at h1
  exact h1.symm

/-- C8: in a run whose variations 1..k-1 succeed and whose variation k
fails, the orchestrator performs generation calls exactly for variations
1..k (none after k), runs post-processing only for variations before k, and
ends the trace with a fatal exit of code 1 reporting exactly variation k's
error string. -/
theorem C8_failure_is_fatal (opts : GenerateOptions) (gen : Nat → String → GenerationResult)
    (n k : Nat) (errStr : String)
    (hn : runVariationCount opts = n)
    (hk1 : 1 ≤ k) (hk2 : k ≤ n)
    (hok : ∀ j, 1 ≤ j → j < k →
      (gen j (variationPath (runBaseOutput opts) (runIsMultiple opts) j)).success = true)
    (hfail : (gen k (variationPath (runBaseOutput opts) (runIsMultiple opts) k)).success = false)
    (herr : (gen k (variationPath (runBaseOutput opts) (runIsMultiple opts) k)).error = some errStr) :
    (runVariations opts gen).exitCode = 1 ∧
    genIndices (runVariations opts gen).trace = List.range' 1 k ∧
    (∀ j ∈ postIndices (runVariations opts gen).trace, j < k) ∧
    (runVariations opts gen).trace.getLast? =
      some (Event.exitFail ("Generation failed: " ++ errStr)) := by
  have hall : ∀ j ∈ List.range' 1 (k - 1),
      (gen j (variationPath (runBaseOutput opts) (runIsMultiple opts) j)).success = true := by
    intro j hj
    have hm := List.mem_range'_1.mp hj
    exact hok j hm.1 (by omega)
  have hrun : runVariations opts gen =
      { trace := okEvents opts gen (runBaseOutput opts) (runIsMultiple opts)
            (List.range' 1 (k - 1)) ++
          [Event.genCall k (variationPath (runBaseOutput opts) (runIsMultiple opts) k),
           Event.exitFail ("Generation failed: " ++
             jsRenderOptStr (gen k (variationPath (runBaseOutput opts) (runIsMultiple opts) k)).error)]
        exitCode := 1
        generatedPaths := (List.range' 1 (k - 1)).map
          (fun j => jsRenderOptStr
            (gen j (variationPath (runBaseOutput opts) (runIsMultiple opts) j)).outputPath) } := by
    unfold runVariations
    rw [hn, range'_split n k hk1 hk2]
    exact runList_prefix_ok opts gen (runBaseOutput opts) (runIsMultiple opts) k
      (List.range' (k + 1) (n - k)) hfail (List.range' 1 (k - 1)) hall
  refine ⟨?_, ?_, ?_, ?_⟩
  · rw [hrun]
  · rw [hrun]
    show genIndices (okEvents opts gen (runBaseOutput opts) (runIsMultiple opts)
        (List.range' 1 (k - 1)) ++ _) = _
    unfold genIndices
    rw [List.filterMap_append]
    have hg := genIndices_okEvents opts gen (runBaseOutput opts) (runIsMultiple opts)
      (List.range' 1 (k - 1))
    unfold genIndices at hg
    rw [hg]
    rw [range'_snoc k hk1]
    rfl
  · rw [hrun]
    intro j hj
    unfold postIndices at hj
    rw [List.filterMap_append] at hj
    rw [List.mem_append] at hj
    rcases hj with hj | hj
    · have hm := postIndices_okEvents_mem opts gen (runBaseOutput opts) (runIsMultiple opts)
        (List.range' 1 (k - 1)) j hj
      have := List.mem_range'_1.mp hm
      omega
    · simp [Event.postIdx] at hj
  · rw [hrun]
    show (okEvents opts gen (runBaseOutput opts) (runIsMultiple opts) (List.range' 1 (k - 1)) ++
        [Event.genCall k (variationPath (runBaseOutput opts) (runIsMultiple opts) k),
         Event.exitFail ("Generation failed: " ++
           jsRenderOptStr (gen k (variationPath (runBaseOutput opts) (runIsMultiple opts) k)).error)]).getLast? = _
    rw [herr]
    have hassoc : okEvents opts gen (runBaseOutput opts) (runIsMultiple opts)
          (List.range' 1 (k - 1)) ++
        [Event.genCall k (variationPath (runBaseOutput opts) (runIsMultiple opts) k),
         Event.exitFail ("Generation failed: " ++ jsRenderOptStr (some errStr))] =
        (okEvents opts gen (runBaseOutput opts) (runIsMultiple opts) (List.range' 1 (k - 1)) ++
          [Event.genCall k (variationPath (runBaseOutput opts) (runIsMultiple opts) k)]) ++
        [Event.exitFail ("Generation failed: " ++ jsRenderOptStr (some errStr))] := by
      simp [List.append_assoc]
    rw [hassoc, List.getLast?_concat]
    rfl

/-- Witness for C8: variation 2 of 3 fails with "boom"; calls happen for
variations 1 and 2 only, and the run reports exactly "boom". -/
theorem C8_witness :
    runVariationCount c8wOpts = 3 ∧
    (runVariations c8wOpts c8wGen).exitCode = 1 ∧
    genIndices (runVariations c8wOpts c8wGen).trace = [1, 2] ∧
    (runVariations c8wOpts c8wGen).trace.getLast? =
      some (Event.exitFail ("Generation failed: " ++ "boom")) := by
  have h := C8_failure_is_fatal c8wOpts c8wGen 3 2 "boom" rfl (by omega) (by omega)
    (by
      intro j h1 h2
      have hj : j = 1 := by omega
      subst hj
      rfl)
    rfl rfl
  refine ⟨rfl, h.1, ?_, h.2.2.2⟩
  rw [h.2.1]
  rfl
